import Mathlib

/-!
Verification of the session lifecycle and overdue-monitoring engine of the
Library-Tracker application.

The embedding models the in-memory ("disconnected/demo") Session Store of
`src/App.tsx`: the `activeSessions`, `sessionHistory` and `todaySessions`
state, the `handleCheckIn` / `handleCheckOut` lifecycle handlers, the
`monitor` tick, the occupancy figures of `src/components/Dashboard.tsx`,
and the `sendOverdueAlert` dispatcher of `src/services/notificationService.ts`.

Timestamps are integer milliseconds since the epoch, as returned by the
JavaScript `Date.getTime()`.
-/

namespace LibraryTracker

/-- A timestamp in milliseconds since the epoch (`Date.getTime()`). -/
abbrev Time := Int

/-- The `Session` record of `src/types.ts`: one visit.  A session is active
iff `checkOut` is absent.  Fields that the TypeScript code leaves `undefined`
at creation (`checkOut`, `duration`, `notes`, `alertTriggered`) are modelled
as `none` / `false`. -/
structure Session where
  id : String
  studentId : String
  studentName : Option String := none
  checkIn : Time
  checkOut : Option Time := none
  duration : Option Int := none
  notes : Option String := none
  alertTriggered : Bool := false
deriving Repr, DecidableEq

/-- The part of the `Patron` record of `src/types.ts` that the monitoring
engine reads (identifier and display name). -/
structure Patron where
  id : String
  name : String
deriving Repr, DecidableEq

/-- The `notifications` block of `AppSettings` (`src/types.ts`). -/
structure NotificationSettings where
  enabled : Bool
  email : String
  thresholdMinutes : Int
deriving Repr, DecidableEq

/-- The `AppSettings` record of `src/types.ts`, restricted to the fields the
engine reads. -/
structure AppSettings where
  dailyCapacity : Int
  autoCheckoutEnabled : Bool
  autoCheckoutHours : Int
  notifications : NotificationSettings
deriving Repr, DecidableEq

/-- The in-memory Session Store of `App.tsx`: the `activeSessions`,
`sessionHistory` and `todaySessions` React state. -/
structure StoreState where
  activeSessions : List Session
  sessionHistory : List Session
  todaySessions : List Session
deriving Repr, DecidableEq

/-- JavaScript `Math.round (a / b)` for an integer numerator `a` and a
positive integer denominator `b`: the floor of `a / b + 1 / 2` (`Math.round`
rounds halves toward positive infinity).  Since Lean's integer division is
euclidean and `2 * b > 0`, `(2 * a + b) / (2 * b)` is exactly that floor. -/
def jsRoundDiv (a : Int) (b : Nat) : Int :=
  (2 * a + (b : Int)) / (2 * (b : Int))

/-- JavaScript `x || dflt` on an optional string: `undefined` and the empty
string are falsy and yield the default. -/
def jsOrDefault (notes : Option String) (dflt : String) : String :=
  match notes with
  | some n => if n = "" then dflt else n
  | none => dflt

/-- The closed copy of a session built by `handleCheckOut` (`App.tsx`
lines 317-331): `checkOut` set to the current time, `duration` set to
`Math.max(1, Math.round((checkOutTime - checkIn) / 60000))`, and `notes`
set to the supplied text or the `"Manual Checkout"` default. -/
def closeSession (s : Session) (checkOutTime : Time) (notes : Option String) : Session :=
  { s with
    checkOut := some checkOutTime
    duration := some (max 1 (jsRoundDiv (checkOutTime - s.checkIn) 60000))
    notes := some (jsOrDefault notes "Manual Checkout") }

/-- `handleCheckOut` of `App.tsx` (lines 312-339), demo-mode branch: look the
session up among the active sessions; if absent, return the state unchanged;
otherwise remove it from the active set, prepend the closed copy to the
session history, and replace its entry in the today list. -/
def handleCheckOut (st : StoreState) (sessionId : String) (checkOutTime : Time)
    (notes : Option String) : StoreState :=
  match st.activeSessions.find? (fun s => s.id == sessionId) with
  | none => st
  | some sessionToClose =>
    let closed := closeSession sessionToClose checkOutTime notes
    { activeSessions := st.activeSessions.filter (fun s => s.id != sessionId)
      sessionHistory := closed :: st.sessionHistory
      todaySessions := st.todaySessions.map (fun s => if s.id == sessionId then closed else s) }

/-- `handleCheckIn` of `App.tsx` (lines 341-363), demo-mode branch: if the
patron already has an active session the call returns the state unchanged;
otherwise a fresh session (check-out absent, no duration, alert flag unset)
is appended to the active set and to the today list. -/
def handleCheckIn (st : StoreState) (patrons : List Patron) (studentId : String)
    (now : Time) (tempId : String) : StoreState :=
  if st.activeSessions.any (fun s => s.studentId == studentId) then st
  else
    let student := patrons.find? (fun p => p.id == studentId)
    let newSession : Session :=
      { id := tempId, studentId := studentId, studentName := student.map Patron.name
        checkIn := now }
    { st with
      activeSessions := st.activeSessions ++ [newSession]
      todaySessions := st.todaySessions ++ [newSession] }

/-- One overdue-alert dispatch issued by the monitor: the arguments of the
`sendOverdueAlert(patron, Math.floor(durationMins), email)` call at
`App.tsx` line 408. -/
structure Dispatch where
  patronId : String
  patronName : String
  elapsedMins : Int
  recipient : String
deriving Repr, DecidableEq

/-- The body of the `monitor` loop of `App.tsx` (lines 396-412) for one
session, in demo mode, threaded through an accumulator of store state and
dispatched alerts.  Elapsed minutes `(now - checkIn) / 60000` are compared
exactly: negative elapsed time skips the session; auto-checkout fires when
`durationMins >= autoCheckoutHours * 60`, i.e. when the elapsed milliseconds
reach `autoCheckoutHours * 3600000`, and closes the session through
`handleCheckOut` with the system note, skipping the alert path; otherwise the
overdue alert fires when notifications are enabled, the session's flag is not
set and the elapsed milliseconds reach `thresholdMinutes * 60000`, provided
the patron is found.  In demo mode the `alert_triggered` database update at
line 409 is guarded by `!demoMode`, so no state change records the alert. -/
def monitorStep (settings : AppSettings) (patrons : List Patron) (now : Time)
    (acc : StoreState × List Dispatch) (session : Session) : StoreState × List Dispatch :=
  let elapsedMs := now - session.checkIn
  if elapsedMs < 0 then acc
  else if settings.autoCheckoutEnabled = true ∧
      settings.autoCheckoutHours * 3600000 ≤ elapsedMs then
    (handleCheckOut acc.1 session.id now (some "Auto-Checkout: System Time Limit Reached"), acc.2)
  else if settings.notifications.enabled = true ∧ session.alertTriggered = false ∧
      settings.notifications.thresholdMinutes * 60000 ≤ elapsedMs then
    match patrons.find? (fun p => p.id == session.studentId) with
    | some patron =>
      (acc.1, acc.2 ++ [⟨patron.id, patron.name, elapsedMs / 60000, settings.notifications.email⟩])
    | none => acc
  else acc

/-- One tick of the `monitor` task of `App.tsx` (lines 390-413), demo mode:
fold the per-session body over the snapshot of the active sessions taken at
the start of the tick, returning the final store state and the list of
overdue-alert dispatches issued during the tick. -/
def monitorTick (settings : AppSettings) (patrons : List Patron) (now : Time)
    (st : StoreState) : StoreState × List Dispatch :=
  st.activeSessions.foldl (monitorStep settings patrons now) (st, [])

/-- The operations that drive the Session Store: check-in, check-out, and a
monitor tick. -/
inductive Op where
  | checkin (studentId : String) (now : Time) (tempId : String)
  | checkout (sessionId : String) (now : Time) (notes : Option String)
  | tick (now : Time)
deriving Repr, DecidableEq

/-- Apply one operation to the store. -/
def applyOp (settings : AppSettings) (patrons : List Patron) (st : StoreState) :
    Op → StoreState
  | Op.checkin studentId now tempId => handleCheckIn st patrons studentId now tempId
  | Op.checkout sessionId now notes => handleCheckOut st sessionId now notes
  | Op.tick now => (monitorTick settings patrons now st).1

/-- Run a sequence of operations from a starting store state. -/
def runOps (settings : AppSettings) (patrons : List Patron) (st : StoreState)
    (ops : List Op) : StoreState :=
  ops.foldl (applyOp settings patrons) st

/-- The initial, empty Session Store. -/
def initialState : StoreState :=
  { activeSessions := [], sessionHistory := [], todaySessions := [] }

/-- The occupancy figures computed by the Dashboard component
(`src/components/Dashboard.tsx` lines 66-69).  `activeTotal` is the size of
the active-session list (`activeSessions.length`). -/
def activeTotal (active : List Session) : Nat :=
  active.length

/-- `remainingSeats = Math.max(0, capacity - activeSessions.length)`
(`Dashboard.tsx` line 68). -/
def remainingSeats (dailyCapacity : Int) (active : List Session) : Int :=
  max 0 (dailyCapacity - (active.length : Int))

/-- `occupancyPercentage = Math.min((activeSessions.length / capacity) * 100, 100)`
(`Dashboard.tsx` line 69), with exact rational arithmetic. -/
def occupancyPercentage (dailyCapacity : Int) (active : List Session) : ℚ :=
  min (((active.length : ℚ) / (dailyCapacity : ℚ)) * 100) 100

/-- A console/browser observation made by the notification dispatcher. -/
inductive LogEntry where
  | browserNotification (body : String)
  | emailLog (msg : String)
  | warnLog (msg : String)
deriving Repr, DecidableEq

/-- `sendOverdueAlert` of `src/services/notificationService.ts` (lines 11-41).
The whole body is wrapped in a try/catch and the Edge-Function call sits in a
second, inner try/catch whose handler only logs a warning, so the function
returns normally on every input: a thrown exception would be an
`Except.error`, and none is ever produced.  The `edgeInvokeResult` argument
is the outcome of the asynchronous `supabase.functions.invoke` call. -/
def sendOverdueAlert (notifPermissionGranted : Bool) (supabaseConfigured : Bool)
    (studentName studentId : String) (durationMins : Int) (librarianEmail : String)
    (edgeInvokeResult : Except String Unit) : Except String (List LogEntry) :=
  let hours := toString (durationMins / 60)
  let mins := toString (durationMins % 60)
  let browserLogs :=
    if notifPermissionGranted then
      [LogEntry.browserNotification
        (studentName ++ " (" ++ studentId ++ ") has been in the library for "
          ++ hours ++ "h " ++ mins ++ "m.")]
    else []
  let emailLogs :=
    if supabaseConfigured ∧ librarianEmail ≠ "" ∧ librarianEmail ≠ "undefined" then
      match edgeInvokeResult with
      | Except.ok _ => [LogEntry.emailLog "Email alert triggered via Edge Function"]
      | Except.error e => [LogEntry.warnLog ("Edge Function communication failed: " ++ e)]
    else []
  Except.ok (browserLogs ++ emailLogs)

/-! ## Helper lemmas -/

/-- `jsRoundDiv` is the half-up rounding of the exact rational quotient,
matching `Math.round((a : number) / b)` for integer inputs. -/
theorem jsRoundDiv_eq_floor (a : Int) (b : Nat) (hb : 0 < b) :
    jsRoundDiv a b = ⌊(a : ℚ) / (b : ℚ) + 1 / 2⌋ := by
  have hb0 : ((b : ℚ)) ≠ 0 := Nat.cast_ne_zero.mpr hb.ne'
  have h := Rat.floor_intCast_div_natCast (2 * a + (b : Int)) (2 * b)
  have harg : (((2 * a + (b : Int)) : ℤ) : ℚ) / ((2 * b : ℕ) : ℚ) =
      (a : ℚ) / (b : ℚ) + 1 / 2 := by
    push_cast
    field_simp
    ring
  rw [harg] at h
  push_cast at h
  rw [jsRoundDiv]
  exact h.symm

/-- Folding over a list in which one element acts as the identity on every
accumulator is the same as folding over the list without it. -/
theorem foldl_skip {α σ : Type} (f : σ → α → σ) (s : α) (hs : ∀ a, f a s = a) :
    ∀ (xs ys : List α) (a : σ),
      List.foldl f a (xs ++ s :: ys) = List.foldl f a (xs ++ ys) := by
  intro xs
  induction xs with
  | nil => intro ys a; simp [hs]
  | cons x xs ih => intro ys a; simpa using ih ys (f a x)

/-- A successful `find?` splits the list at the first hit: everything before
it fails the predicate. -/
theorem find?_split {α : Type} (p : α → Bool) :
    ∀ (l : List α) (a : α), l.find? p = some a →
      ∃ xs ys, l = xs ++ a :: ys ∧ ∀ x ∈ xs, p x = false := by
  intro l
  induction l with
  | nil => intro a h; simp at h
  | cons x xs ih =>
    intro a h
    by_cases hx : p x = true
    · rw [List.find?_cons_of_pos _ hx] at h
      obtain rfl := Option.some_inj.mp h
      exact ⟨[], xs, by simp, by simp⟩
    · rw [List.find?_cons_of_neg _ hx] at h
      obtain ⟨l1, l2, hl, hfail⟩ := ih a h
      refine ⟨x :: l1, l2, by simp [hl], ?_⟩
      intro y hy
      rcases List.mem_cons.mp hy with rfl | hy
      · exact Bool.eq_false_iff.mpr hx
      · exact hfail y hy

/-- Checking a session out never adds sessions to the active set. -/
theorem handleCheckOut_active_sublist (st : StoreState) (sessionId : String)
    (checkOutTime : Time) (notes : Option String) :
    (handleCheckOut st sessionId checkOutTime notes).activeSessions.Sublist
      st.activeSessions := by
  unfold handleCheckOut
  cases h : st.activeSessions.find? (fun s => s.id == sessionId) with
  | none => exact List.Sublist.refl _
  | some s => exact List.filter_sublist _

/-- One monitor step never adds sessions to the active set. -/
theorem monitorStep_active_sublist (settings : AppSettings) (patrons : List Patron)
    (now : Time) (acc : StoreState × List Dispatch) (session : Session) :
    (monitorStep settings patrons now acc session).1.activeSessions.Sublist
      acc.1.activeSessions := by
  unfold monitorStep
  dsimp only
  split
  · exact List.Sublist.refl _
  split
  · exact handleCheckOut_active_sublist ..
  split
  · split
    · exact List.Sublist.refl _
    · exact List.Sublist.refl _
  · exact List.Sublist.refl _

/-- Folding monitor steps never adds sessions to the active set. -/
theorem monitorFold_active_sublist (settings : AppSettings) (patrons : List Patron)
    (now : Time) :
    ∀ (l : List Session) (acc : StoreState × List Dispatch),
      (List.foldl (monitorStep settings patrons now) acc l).1.activeSessions.Sublist
        acc.1.activeSessions := by
  intro l
  induction l with
  | nil => intro acc; exact List.Sublist.refl _
  | cons s l ih =>
    intro acc
    exact (ih (monitorStep settings patrons now acc s)).trans
      (monitorStep_active_sublist settings patrons now acc s)

/-- The Session Store invariant: active sessions belong to pairwise distinct
patrons, and none of them carries a check-out timestamp. -/
def ActiveInv (st : StoreState) : Prop :=
  st.activeSessions.Pairwise (fun a b => a.studentId ≠ b.studentId) ∧
  ∀ s ∈ st.activeSessions, s.checkOut = none

theorem ActiveInv.of_sublist {st st' : StoreState}
    (hsub : st'.activeSessions.Sublist st.activeSessions) (h : ActiveInv st) :
    ActiveInv st' :=
  ⟨h.1.sublist hsub, fun s hs => h.2 s (hsub.subset hs)⟩

theorem activeInv_handleCheckIn (st : StoreState) (patrons : List Patron)
    (studentId : String) (now : Time) (tempId : String) (h : ActiveInv st) :
    ActiveInv (handleCheckIn st patrons studentId now tempId) := by
  unfold handleCheckIn
  by_cases hguard : st.activeSessions.any (fun s => s.studentId == studentId) = true
  · simpa [hguard] using h
  · have hfresh : ∀ s ∈ st.activeSessions, s.studentId ≠ studentId := by
      intro s hs heq
      exact hguard (List.any_eq_true.mpr ⟨s, hs, by simp [heq]⟩)
    simp only [hguard, if_false, Bool.false_eq_true]
    constructor
    · refine List.pairwise_append.mpr ⟨h.1, by simp, ?_⟩
      intro a ha b hb
      simp only [List.mem_singleton] at hb
      subst hb
      exact hfresh a ha
    · intro s hs
      rcases List.mem_append.mp hs with hs | hs
      · exact h.2 s hs
      · simp only [List.mem_singleton] at hs
        subst hs
        rfl

theorem activeInv_handleCheckOut (st : StoreState) (sessionId : String)
    (checkOutTime : Time) (notes : Option String) (h : ActiveInv st) :
    ActiveInv (handleCheckOut st sessionId checkOutTime notes) :=
  ActiveInv.of_sublist (handleCheckOut_active_sublist ..) h

theorem activeInv_tick (settings : AppSettings) (patrons : List Patron) (now : Time)
    (st : StoreState) (h : ActiveInv st) :
    ActiveInv (monitorTick settings patrons now st).1 :=
  ActiveInv.of_sublist (monitorFold_active_sublist settings patrons now _ _) h

theorem activeInv_applyOp (settings : AppSettings) (patrons : List Patron)
    (st : StoreState) (op : Op) (h : ActiveInv st) :
    ActiveInv (applyOp settings patrons st op) := by
  cases op with
  | checkin studentId now tempId => exact activeInv_handleCheckIn st patrons studentId now tempId h
  | checkout sessionId now notes => exact activeInv_handleCheckOut st sessionId now notes h
  | tick now => exact activeInv_tick settings patrons now st h

theorem activeInv_runOps_of (settings : AppSettings) (patrons : List Patron) :
    ∀ (ops : List Op) (st : StoreState), ActiveInv st →
      ActiveInv (runOps settings patrons st ops) := by
  intro ops
  induction ops with
  | nil => intro st h; exact h
  | cons op ops ih =>
    intro st h
    exact ih (applyOp settings patrons st op) (activeInv_applyOp settings patrons st op h)

theorem activeInv_reachable (settings : AppSettings) (patrons : List Patron)
    (ops : List Op) : ActiveInv (runOps settings patrons initialState ops) :=
  activeInv_runOps_of settings patrons ops initialState (by constructor <;> simp [initialState])

/-- A monitor step keeps an active session whose id differs from the id of
the session being processed, or whose processing is skipped because of
negative elapsed time. -/
theorem monitorStep_preserves_mem (settings : AppSettings) (patrons : List Patron)
    (now : Time) (acc : StoreState × List Dispatch) (t s : Session)
    (hmem : s ∈ acc.1.activeSessions) (h : t.id ≠ s.id ∨ now - t.checkIn < 0) :
    s ∈ (monitorStep settings patrons now acc t).1.activeSessions := by
  rcases h with hid | hneg
  · unfold monitorStep
    dsimp only
    split
    · exact hmem
    split
    · unfold handleCheckOut
      split
      · exact hmem
      · exact List.mem_filter.mpr ⟨hmem, by simp [bne_iff_ne]; exact fun he => hid he.symm⟩
    split
    · split
      · exact hmem
      · exact hmem
    · exact hmem
  · unfold monitorStep
    dsimp only
    rw [if_pos hneg]
    exact hmem

/-- Folding monitor steps keeps an active session when every processed
session either has a different id or negative elapsed time. -/
theorem monitorFold_preserves_mem (settings : AppSettings) (patrons : List Patron)
    (now : Time) (s : Session) :
    ∀ (l : List Session) (acc : StoreState × List Dispatch),
      s ∈ acc.1.activeSessions →
      (∀ t ∈ l, t.id ≠ s.id ∨ now - t.checkIn < 0) →
      s ∈ (List.foldl (monitorStep settings patrons now) acc l).1.activeSessions := by
  intro l
  induction l with
  | nil => intro acc hmem _; exact hmem
  | cons t l ih =>
    intro acc hmem hl
    exact ih (monitorStep settings patrons now acc t)
      (monitorStep_preserves_mem settings patrons now acc t s hmem
        (hl t (List.mem_cons_self t l)))
      (fun u hu => hl u (List.mem_cons_of_mem t hu))

/-! ## Claim theorems -/

/-- Claim C1: for every patron and every state of the Session Store reachable
from the empty store by any sequence of check-in, check-out and monitor-tick
operations, the store never contains two active sessions for that patron:
the active-session list is pairwise distinct in `studentId`. -/
theorem no_two_active_sessions_per_patron (settings : AppSettings)
    (patrons : List Patron) (ops : List Op) :
    ((runOps settings patrons initialState ops).activeSessions).Pairwise
      (fun a b => a.studentId ≠ b.studentId) :=
  (activeInv_reachable settings patrons ops).1

/-- Claim C5: invoking check-in for a patron who already has an active
session is a no-op: the store state after the call equals the state before,
so no second session is created. -/
theorem checkIn_noop_when_already_active (st : StoreState) (patrons : List Patron)
    (studentId : String) (now : Time) (tempId : String) (s : Session)
    (hmem : s ∈ st.activeSessions) (hsid : s.studentId = studentId) :
    handleCheckIn st patrons studentId now tempId = st := by
  unfold handleCheckIn
  have hguard : st.activeSessions.any (fun t => t.studentId == studentId) = true :=
    List.any_eq_true.mpr ⟨s, hmem, by simp [hsid]⟩
  simp [hguard]

/-- Witness for claim C5 at a concrete store holding one active session. -/
theorem checkIn_noop_when_already_active_witness :
    (⟨"s1", "ST-001", none, 0, none, none, none, false⟩ : Session) ∈
      (⟨[⟨"s1", "ST-001", none, 0, none, none, none, false⟩], [], []⟩ :
        StoreState).activeSessions ∧
    handleCheckIn
      (⟨[⟨"s1", "ST-001", none, 0, none, none, none, false⟩], [], []⟩ : StoreState)
      [] "ST-001" 999 "local-999" =
      (⟨[⟨"s1", "ST-001", none, 0, none, none, none, false⟩], [], []⟩ : StoreState) :=
  ⟨by decide, checkIn_noop_when_already_active
    (⟨[⟨"s1", "ST-001", none, 0, none, none, none, false⟩], [], []⟩ : StoreState)
    [] "ST-001" 999 "local-999"
    (⟨"s1", "ST-001", none, 0, none, none, none, false⟩ : Session)
    (by decide) rfl⟩

/-- Claim C6: invoking check-out with an id that does not refer to an active
session (nonexistent, or already closed and hence absent from the active set)
is a no-op that raises no error: the resulting store state equals the
previous one, so an earlier close of the same id keeps its duration and
check-out timestamp. -/
theorem checkOut_noop_when_not_active (st : StoreState) (sessionId : String)
    (checkOutTime : Time) (notes : Option String)
    (h : ∀ s ∈ st.activeSessions, s.id ≠ sessionId) :
    handleCheckOut st sessionId checkOutTime notes = st := by
  unfold handleCheckOut
  have hfind : st.activeSessions.find? (fun s => s.id == sessionId) = none :=
    List.find?_eq_none.mpr (fun s hs => by simp [h s hs])
  simp [hfind]

/-- Witness for claim C6: checking out an id absent from the active set
leaves a store containing an already-closed session with that id untouched. -/
theorem checkOut_noop_when_not_active_witness :
    (∀ s ∈ (⟨[], [⟨"s1", "ST-001", none, 0, some 300000, some 5, some "Manual Checkout", false⟩],
        [⟨"s1", "ST-001", none, 0, some 300000, some 5, some "Manual Checkout", false⟩]⟩ :
          StoreState).activeSessions, s.id ≠ "s1") ∧
    handleCheckOut
      (⟨[], [⟨"s1", "ST-001", none, 0, some 300000, some 5, some "Manual Checkout", false⟩],
        [⟨"s1", "ST-001", none, 0, some 300000, some 5, some "Manual Checkout", false⟩]⟩ :
          StoreState) "s1" 900000 none =
      (⟨[], [⟨"s1", "ST-001", none, 0, some 300000, some 5, some "Manual Checkout", false⟩],
        [⟨"s1", "ST-001", none, 0, some 300000, some 5, some "Manual Checkout", false⟩]⟩ :
          StoreState) :=
  ⟨by decide, checkOut_noop_when_not_active
    (⟨[], [⟨"s1", "ST-001", none, 0, some 300000, some 5, some "Manual Checkout", false⟩],
      [⟨"s1", "ST-001", none, 0, some 300000, some 5, some "Manual Checkout", false⟩]⟩ :
        StoreState) "s1" 900000 none (by decide)⟩

/-- Claim C2: checking out an active session yields a closed session whose
duration is `max 1` of the half-up rounding of `(now - checkIn) / 60000`
minutes — the `jsRoundDiv` value, which equals the rational rounding
`⌊(now - checkIn) / 60000 + 1 / 2⌋` — and that duration is always at least 1
(in particular whenever `checkIn < now`). -/
theorem checkOut_duration_rule (st : StoreState) (sessionId : String) (now : Time)
    (notes : Option String) (s : Session)
    (hfind : st.activeSessions.find? (fun t => t.id == sessionId) = some s) :
    (handleCheckOut st sessionId now notes).sessionHistory.head? =
      some (closeSession s now notes) ∧
    (closeSession s now notes).duration =
      some (max 1 (jsRoundDiv (now - s.checkIn) 60000)) ∧
    jsRoundDiv (now - s.checkIn) 60000 =
      ⌊((now : ℚ) - (s.checkIn : ℚ)) / 60000 + 1 / 2⌋ ∧
    ∀ d, (closeSession s now notes).duration = some d → 1 ≤ d := by
  refine ⟨?_, rfl, ?_, ?_⟩
  · unfold handleCheckOut
    rw [hfind]
    rfl
  · have h := jsRoundDiv_eq_floor (now - s.checkIn) 60000 (by norm_num)
    push_cast at h
    exact h
  · intro d hd
    have : max 1 (jsRoundDiv (now - s.checkIn) 60000) = d := by
      simpa [closeSession] using hd
    rw [← this]
    exact le_max_left _ _

/-- Witness for claim C2: a five-minute visit closes with duration 5. -/
theorem checkOut_duration_rule_witness :
    (⟨[⟨"s1", "ST-001", none, 0, none, none, none, false⟩], [], []⟩ :
        StoreState).activeSessions.find? (fun t => t.id == "s1") =
      some (⟨"s1", "ST-001", none, 0, none, none, none, false⟩ : Session) ∧
    (handleCheckOut
        (⟨[⟨"s1", "ST-001", none, 0, none, none, none, false⟩], [], []⟩ : StoreState)
        "s1" 300000 none).sessionHistory.head? =
      some (closeSession (⟨"s1", "ST-001", none, 0, none, none, none, false⟩ : Session)
        300000 none) :=
  ⟨by decide, (checkOut_duration_rule
    (⟨[⟨"s1", "ST-001", none, 0, none, none, none, false⟩], [], []⟩ : StoreState)
    "s1" 300000 none (⟨"s1", "ST-001", none, 0, none, none, none, false⟩ : Session)
    (by decide)).1⟩

/-- Claim C4: in a monitor tick, an active session with non-negative elapsed
time that reaches the auto-checkout limit while the policy is enabled is
force-closed through the normal check-out with the system note
`"Auto-Checkout: System Time Limit Reached"` and normally computed duration,
and the overdue-alert path is not evaluated for it in that tick: the
dispatched-alert accumulator is unchanged. -/
theorem monitor_auto_checkout_force_closes (settings : AppSettings)
    (patrons : List Patron) (now : Time) (st : StoreState) (alerts : List Dispatch)
    (s : Session)
    (henabled : settings.autoCheckoutEnabled = true)
    (hpos : 0 ≤ now - s.checkIn)
    (hdue : settings.autoCheckoutHours * 3600000 ≤ now - s.checkIn)
    (hfind : st.activeSessions.find? (fun t => t.id == s.id) = some s) :
    monitorStep settings patrons now (st, alerts) s =
      (handleCheckOut st s.id now (some "Auto-Checkout: System Time Limit Reached"),
        alerts) ∧
    (monitorStep settings patrons now (st, alerts) s).1.sessionHistory.head? =
      some (closeSession s now (some "Auto-Checkout: System Time Limit Reached")) ∧
    (closeSession s now (some "Auto-Checkout: System Time Limit Reached")).notes =
      some "Auto-Checkout: System Time Limit Reached" ∧
    (closeSession s now (some "Auto-Checkout: System Time Limit Reached")).duration =
      some (max 1 (jsRoundDiv (now - s.checkIn) 60000)) := by
  have hneg : ¬ (now - s.checkIn < 0) := not_lt.mpr hpos
  have hstep : monitorStep settings patrons now (st, alerts) s =
      (handleCheckOut st s.id now (some "Auto-Checkout: System Time Limit Reached"),
        alerts) := by
    unfold monitorStep
    dsimp only
    rw [if_neg hneg, if_pos ⟨henabled, hdue⟩]
  refine ⟨hstep, ?_, rfl, rfl⟩
  rw [hstep]
  dsimp only
  unfold handleCheckOut
  rw [hfind]
  rfl

/-- Witness for claim C4: with a one-hour limit, a tick 61 minutes after
check-in force-closes the session with the system note. -/
theorem monitor_auto_checkout_force_closes_witness :
    ((⟨120, true, 1, ⟨true, "lib@example.com", 180⟩⟩ : AppSettings).autoCheckoutEnabled
      = true) ∧
    monitorStep (⟨120, true, 1, ⟨true, "lib@example.com", 180⟩⟩ : AppSettings)
        [] 3660000
        ((⟨[⟨"s1", "ST-001", none, 0, none, none, none, false⟩], [], []⟩ : StoreState), [])
        (⟨"s1", "ST-001", none, 0, none, none, none, false⟩ : Session) =
      (handleCheckOut
        (⟨[⟨"s1", "ST-001", none, 0, none, none, none, false⟩], [], []⟩ : StoreState)
        "s1" 3660000 (some "Auto-Checkout: System Time Limit Reached"), []) :=
  ⟨rfl, (monitor_auto_checkout_force_closes
    (⟨120, true, 1, ⟨true, "lib@example.com", 180⟩⟩ : AppSettings) [] 3660000
    (⟨[⟨"s1", "ST-001", none, 0, none, none, none, false⟩], [], []⟩ : StoreState) []
    (⟨"s1", "ST-001", none, 0, none, none, none, false⟩ : Session)
    rfl (by decide) (by decide) (by decide)).1⟩

/-- Claim C7: an active session with negative elapsed time (check-in in the
future) is skipped by the monitor tick: neither the auto-checkout nor the
overdue-alert policy is applied to it, the tick equals the tick over the
remaining sessions (which are still processed), and the session itself stays
in the active set unchanged. -/
theorem monitor_skips_negative_elapsed (settings : AppSettings)
    (patrons : List Patron) (now : Time) (st : StoreState)
    (xs ys : List Session) (s : Session)
    (hsplit : st.activeSessions = xs ++ s :: ys)
    (hneg : now - s.checkIn < 0)
    (hids : ∀ t ∈ xs ++ ys, t.id ≠ s.id) :
    monitorTick settings patrons now st =
      List.foldl (monitorStep settings patrons now) (st, []) (xs ++ ys) ∧
    s ∈ (monitorTick settings patrons now st).1.activeSessions := by
  have hid : ∀ a, monitorStep settings patrons now a s = a := by
    intro a
    unfold monitorStep
    dsimp only
    rw [if_pos hneg]
  constructor
  · unfold monitorTick
    rw [hsplit]
    exact foldl_skip _ s hid xs ys (st, [])
  · unfold monitorTick
    rw [hsplit]
    apply monitorFold_preserves_mem
    · show s ∈ st.activeSessions
      rw [hsplit]
      exact List.mem_append.mpr (Or.inr (List.mem_cons_self s ys))
    · intro t ht
      rcases List.mem_append.mp ht with hx | hx
      · exact Or.inl (hids t (List.mem_append.mpr (Or.inl hx)))
      · rcases List.mem_cons.mp hx with rfl | hx
        · exact Or.inr hneg
        · exact Or.inl (hids t (List.mem_append.mpr (Or.inr hx)))

/-- Witness for claim C7: a session checked in at t = 1000 survives a tick at
t = 0 untouched. -/
theorem monitor_skips_negative_elapsed_witness :
    ((0 : Int) - (1000 : Int) < 0) ∧
    (⟨"s1", "ST-001", none, 1000, none, none, none, false⟩ : Session) ∈
      (monitorTick (⟨120, true, 1, ⟨true, "lib@example.com", 180⟩⟩ : AppSettings)
        [] 0
        (⟨[⟨"s1", "ST-001", none, 1000, none, none, none, false⟩], [], []⟩ :
          StoreState)).1.activeSessions :=
  ⟨by decide, (monitor_skips_negative_elapsed
    (⟨120, true, 1, ⟨true, "lib@example.com", 180⟩⟩ : AppSettings) [] 0
    (⟨[⟨"s1", "ST-001", none, 1000, none, none, none, false⟩], [], []⟩ : StoreState)
    [] [] (⟨"s1", "ST-001", none, 1000, none, none, none, false⟩ : Session)
    rfl (by decide) (by decide)).2⟩

/-- Claim C8: for any reachable store and positive daily capacity, the
Occupancy Accountant figures satisfy the spec: `activeTotal` counts exactly
the sessions with absent check-out, `remainingSeats + activeTotal` equals the
capacity whenever `activeTotal ≤ dailyCapacity` (so in particular is at most
the capacity), `remainingSeats = 0` otherwise, and `occupancyPercentage` is
`min(100, activeTotal / dailyCapacity × 100)`. -/
theorem occupancy_accountant (settings : AppSettings) (patrons : List Patron)
    (ops : List Op) (dailyCapacity : Int) (hcap : 0 < dailyCapacity) :
    activeTotal (runOps settings patrons initialState ops).activeSessions =
      List.countP (fun s => s.checkOut == none)
        (runOps settings patrons initialState ops).activeSessions ∧
    ((activeTotal (runOps settings patrons initialState ops).activeSessions : Int) ≤
        dailyCapacity →
      remainingSeats dailyCapacity (runOps settings patrons initialState ops).activeSessions +
        (activeTotal (runOps settings patrons initialState ops).activeSessions : Int) =
        dailyCapacity) ∧
    (dailyCapacity <
        (activeTotal (runOps settings patrons initialState ops).activeSessions : Int) →
      remainingSeats dailyCapacity
        (runOps settings patrons initialState ops).activeSessions = 0) ∧
    occupancyPercentage dailyCapacity
        (runOps settings patrons initialState ops).activeSessions =
      min 100
        (((activeTotal (runOps settings patrons initialState ops).activeSessions : ℚ) /
          (dailyCapacity : ℚ)) * 100) := by
  have hopen := (activeInv_reachable settings patrons ops).2
  refine ⟨?_, ?_, ?_, ?_⟩
  · exact (List.countP_eq_length.mpr (fun s hs => by simp [hopen s hs])).symm
  · intro hle
    unfold remainingSeats activeTotal
    unfold activeTotal at hle
    rw [max_eq_right (by omega)]
    ring
  · intro hlt
    unfold remainingSeats
    unfold activeTotal at hlt
    rw [max_eq_left (by omega)]
  · unfold occupancyPercentage activeTotal
    rw [min_comm]

/-- Witness for claim C8: after one check-in, the active count is the count
of open sessions, at capacity 120. -/
theorem occupancy_accountant_witness :
    ((0 : Int) < 120) ∧
    activeTotal (runOps (⟨120, false, 12, ⟨true, "lib@example.com", 180⟩⟩ : AppSettings)
        [] initialState [Op.checkin "ST-001" 0 "local-0"]).activeSessions =
      List.countP (fun s => s.checkOut == none)
        (runOps (⟨120, false, 12, ⟨true, "lib@example.com", 180⟩⟩ : AppSettings)
          [] initialState [Op.checkin "ST-001" 0 "local-0"]).activeSessions :=
  ⟨by decide, (occupancy_accountant
    (⟨120, false, 12, ⟨true, "lib@example.com", 180⟩⟩ : AppSettings)
    [] [Op.checkin "ST-001" 0 "local-0"] 120 (by decide)).1⟩

/-- Claim C9: per-session failures are isolated within a monitor tick.  The
notification dispatcher returns normally on every input, including a failed
Edge-Function call (no exception propagates), and a session whose patron
lookup fails contributes nothing to the tick while every remaining session is
still processed: the fold over the tick's snapshot with the failing session
equals the fold without it. -/
theorem monitor_isolates_per_session_failures
    (notifPermissionGranted supabaseConfigured : Bool)
    (studentName studentIdText : String) (durationMins : Int)
    (librarianEmail : String) (edgeInvokeResult : Except String Unit)
    (settings : AppSettings) (patrons : List Patron) (now : Time)
    (acc : StoreState × List Dispatch) (xs ys : List Session) (s : Session)
    (hnoauto : ¬ (settings.autoCheckoutEnabled = true ∧
      settings.autoCheckoutHours * 3600000 ≤ now - s.checkIn))
    (hnopatron : patrons.find? (fun p => p.id == s.studentId) = none) :
    (∃ logs, sendOverdueAlert notifPermissionGranted supabaseConfigured studentName
        studentIdText durationMins librarianEmail edgeInvokeResult =
        Except.ok logs) ∧
    List.foldl (monitorStep settings patrons now) acc (xs ++ s :: ys) =
      List.foldl (monitorStep settings patrons now) acc (xs ++ ys) := by
  constructor
  · exact ⟨_, rfl⟩
  · apply foldl_skip
    intro a
    unfold monitorStep
    dsimp only
    by_cases h1 : now - s.checkIn < 0
    · rw [if_pos h1]
    · rw [if_neg h1, if_neg hnoauto]
      by_cases h2 : settings.notifications.enabled = true ∧ s.alertTriggered = false ∧
          settings.notifications.thresholdMinutes * 60000 ≤ now - s.checkIn
      · rw [if_pos h2, hnopatron]
      · rw [if_neg h2]

/-- Witness for claim C9: a failing Edge-Function call still yields a normal
return, and a session whose patron is unknown is skipped by the tick. -/
theorem monitor_isolates_per_session_failures_witness :
    ((⟨[], []⟩ : List Patron × List Session).1.find?
        (fun p => p.id == "ST-404") = none) ∧
    (∃ logs, sendOverdueAlert true true "John Doe" "ST-001" 181 "lib@example.com"
        (Except.error "network down") = Except.ok logs) :=
  ⟨by decide, (monitor_isolates_per_session_failures true true "John Doe" "ST-001"
    181 "lib@example.com" (Except.error "network down")
    (⟨120, false, 12, ⟨true, "lib@example.com", 180⟩⟩ : AppSettings)
    [] 10860000
    ((⟨[⟨"s9", "ST-404", none, 0, none, none, none, false⟩], [], []⟩ : StoreState), [])
    [] [] (⟨"s9", "ST-404", none, 0, none, none, none, false⟩ : Session)
    (by decide) (by decide)).1⟩

/-- Claim C10: in demo mode, checking out an active session removes exactly
that session from the active set (all other active sessions are untouched and
keep their order), prepends the closed copy to the front of the session
history, and rewrites only the entries bearing that id in the today list,
leaving every other entry in place. -/
theorem checkOut_demo_frame (st : StoreState) (sessionId : String) (now : Time)
    (notes : Option String) (s : Session)
    (hfind : st.activeSessions.find? (fun t => t.id == sessionId) = some s)
    (hnodup : (st.activeSessions.map Session.id).Nodup) :
    (∃ xs ys, st.activeSessions = xs ++ s :: ys ∧
      (handleCheckOut st sessionId now notes).activeSessions = xs ++ ys ∧
      ∀ t ∈ xs ++ ys, t.id ≠ sessionId) ∧
    (handleCheckOut st sessionId now notes).sessionHistory =
      closeSession s now notes :: st.sessionHistory ∧
    (handleCheckOut st sessionId now notes).todaySessions =
      st.todaySessions.map
        (fun t => if t.id == sessionId then closeSession s now notes else t) ∧
    ∀ t ∈ st.todaySessions, t.id ≠ sessionId →
      t ∈ (handleCheckOut st sessionId now notes).todaySessions := by
  have hsid : s.id = sessionId := by
    have h := List.find?_some hfind
    simpa using h
  obtain ⟨xs, ys, hsplit, hxs⟩ := find?_split _ st.activeSessions s hfind
  have hxs2 : ∀ t ∈ xs, t.id ≠ sessionId := by
    intro t ht
    have h := hxs t ht
    simpa using h
  have hys : ∀ t ∈ ys, t.id ≠ sessionId := by
    rw [hsplit, List.map_append] at hnodup
    have h2 := hnodup.of_append_right
    rw [List.map_cons, List.nodup_cons] at h2
    intro t ht heq
    apply h2.1
    rw [hsid, ← heq]
    exact List.mem_map_of_mem _ ht
  have hactive : (handleCheckOut st sessionId now notes).activeSessions = xs ++ ys := by
    unfold handleCheckOut
    rw [hfind]
    dsimp only
    rw [hsplit, List.filter_append, List.filter_cons_of_neg (by simp [hsid]),
      List.filter_eq_self.mpr (fun t ht => by
        simp only [bne_iff_ne, ne_eq, decide_eq_true_eq]
        exact hxs2 t ht),
      List.filter_eq_self.mpr (fun t ht => by
        simp only [bne_iff_ne, ne_eq, decide_eq_true_eq]
        exact hys t ht)]
  refine ⟨⟨xs, ys, hsplit, hactive, ?_⟩, ?_, ?_, ?_⟩
  · intro t ht
    rcases List.mem_append.mp ht with h | h
    · exact hxs2 t h
    · exact hys t h
  · unfold handleCheckOut
    rw [hfind]
  · unfold handleCheckOut
    rw [hfind]
  · intro t ht hne
    unfold handleCheckOut
    rw [hfind]
    exact List.mem_map.mpr ⟨t, ht, if_neg (by simp [hne])⟩

/-- Witness for claim C10: checking out the first of two active sessions
prepends its closed copy to the history. -/
theorem checkOut_demo_frame_witness :
    ((⟨[⟨"s1", "ST-001", none, 0, none, none, none, false⟩,
        ⟨"s2", "ST-002", none, 60000, none, none, none, false⟩], [], []⟩ :
          StoreState).activeSessions.map Session.id).Nodup ∧
    (handleCheckOut
        (⟨[⟨"s1", "ST-001", none, 0, none, none, none, false⟩,
          ⟨"s2", "ST-002", none, 60000, none, none, none, false⟩], [], []⟩ : StoreState)
        "s1" 300000 none).sessionHistory =
      closeSession (⟨"s1", "ST-001", none, 0, none, none, none, false⟩ : Session)
        300000 none :: [] :=
  ⟨by decide, (checkOut_demo_frame
    (⟨[⟨"s1", "ST-001", none, 0, none, none, none, false⟩,
      ⟨"s2", "ST-002", none, 60000, none, none, none, false⟩], [], []⟩ : StoreState)
    "s1" 300000 none (⟨"s1", "ST-001", none, 0, none, none, none, false⟩ : Session)
    (by decide) (by decide)).2.1⟩

/-- Settings for the demo-mode double-alert run: auto-checkout disabled,
notifications enabled with a 180-minute threshold. -/
def c3Settings : AppSettings :=
  ⟨120, false, 12, ⟨true, "bhfnmtclibrary@gmail.com", 180⟩⟩

/-- Patron registry for the demo-mode double-alert run. -/
def c3Patrons : List Patron := [⟨"ST-001", "John Doe"⟩]

/-- Store with a single active session checked in at t = 0 for the demo-mode
double-alert run. -/
def c3State : StoreState :=
  ⟨[⟨"s1", "ST-001", none, 0, none, none, none, false⟩], [],
    [⟨"s1", "ST-001", none, 0, none, none, none, false⟩]⟩

/-- Claim C3 (code bug, demo mode): the demo-mode monitor never records
`alertTriggered` — the flag update at `App.tsx` line 409 runs only when not
in demo mode and no local state update exists — so a tick at t = 181 min
dispatches the overdue alert, leaves the store completely unchanged, and the
next tick at t = 182 min dispatches a second alert for the same session,
contradicting the at-most-once property. -/
theorem monitor_demo_dispatches_again_on_second_tick :
    (monitorTick c3Settings c3Patrons 10860000 c3State).2.length = 1 ∧
    (monitorTick c3Settings c3Patrons 10860000 c3State).1 = c3State ∧
    (monitorTick c3Settings c3Patrons 10920000
      (monitorTick c3Settings c3Patrons 10860000 c3State).1).2.length = 1 := by
  decide

end LibraryTracker
